import Mathlib

/-!
Shallow embedding of the property-alerts repository (TypeScript sources
`src/index.ts`, `src/store.ts`, `src/scraper.ts`, `src/notifier.ts`).

Effects (Redis writes, Telegram sends, delays) are modelled as explicit
event traces; Redis state is a pair of optional string lists (a `none`
key models a key that has never been written, matching `redis.exists`).
Transport failures for the notifier and adapter failures for the scraper
are modelled by explicit failure patterns passed as functions.
-/

namespace PropertyAlerts

/-- `Listing` from `src/types.ts`: one observed classified-ad entry. -/
structure Listing where
  id : String
  title : String
  price : String
  url : String
  location : Option String
  imageUrl : Option String
deriving DecidableEq

/-- The JavaScript regex class `\s`: whitespace characters recognised by
`/\s+/g` in `String.prototype.replace` (and by `trim`). -/
def isJsSpace (c : Char) : Bool :=
  c == ' ' || c == '\t' || c == '\n' || c == '\r' ||
  c.toNat == 0xb || c.toNat == 0xc || c.toNat == 0xa0 || c.toNat == 0x1680 ||
  (0x2000 ≤ c.toNat && c.toNat ≤ 0x200a) || c.toNat == 0x2028 || c.toNat == 0x2029 ||
  c.toNat == 0x202f || c.toNat == 0x205f || c.toNat == 0x3000 || c.toNat == 0xfeff

/-- `replace(/\s+/g, " ")`: collapse every maximal whitespace run to a
single space.  The boolean flag records whether the previous character
was part of a whitespace run. -/
def collapseWsAux : Bool → List Char → List Char
  | _, [] => []
  | prevWs, c :: rest =>
    if isJsSpace c then
      if prevWs then collapseWsAux true rest
      else ' ' :: collapseWsAux true rest
    else c :: collapseWsAux false rest

def collapseWs (l : List Char) : List Char := collapseWsAux false l

/-- JavaScript `String.prototype.trim`. -/
def jsTrimList (l : List Char) : List Char :=
  ((l.dropWhile isJsSpace).reverse.dropWhile isJsSpace).reverse

def jsTrimStr (s : String) : String := String.mk (jsTrimList s.data)

/-- `replace(/\s+/g, "")`: delete all whitespace. -/
def stripWs (s : String) : String := String.mk (s.data.filter (fun c => !isJsSpace c))

/-- `getFingerprint` from `src/index.ts` (lines 155-159): normalized join
of lower-cased whitespace-collapsed trimmed title and whitespace-stripped
trimmed price, joined by a pipe character. -/
def getFingerprint (l : Listing) : String :=
  let title := jsTrimStr (String.mk (collapseWs (l.title.data.map Char.toLower)))
  let price := jsTrimStr (stripWs l.price)
  title ++ "|" ++ price

/-- The two Redis set keys of `src/store.ts`.  `none` models a key that
has never been written (`redis.exists` returns 0). -/
structure RedisState where
  seenIds : Option (List String)
  seenFps : Option (List String)
deriving DecidableEq

/-- Observable effects of one run of `main` (`src/index.ts`): Redis set
writes and expiry refreshes (from `src/store.ts`), fetches, and the
notification calls made by `main`. -/
inductive MEvent where
  | fetch (url : String)
  | saddIds (ids : List String)
  | expireIds
  | saddFps (fps : List String)
  | expireFps
  | notifyZero
  | notifyInit (listingCount : Nat) (urlCount : Nat)
  | dispatchNew (listings : List Listing)
deriving DecidableEq

/-- `getSeenIds` from `src/store.ts`: `smembers` of the identity key
(empty when the key is absent). -/
def getSeenIds (st : RedisState) : List String := st.seenIds.getD []

/-- `hasSeenIds` from `src/store.ts`: `exists(REDIS_KEY) === 1`. -/
def hasSeenIds (st : RedisState) : Bool := st.seenIds.isSome

/-- `getSeenFingerprints` from `src/store.ts`. -/
def getSeenFingerprints (st : RedisState) : List String := st.seenFps.getD []

/-- Events emitted by `addSeenIds` from `src/store.ts`: no-op on empty
input, otherwise one `sadd` then one `expire` on the identity key. -/
def addSeenIdsEvents (ids : List String) : List MEvent :=
  if ids.length = 0 then [] else [MEvent.saddIds ids, MEvent.expireIds]

/-- Events emitted by `addSeenFingerprints` from `src/store.ts`. -/
def addSeenFpsEvents (fps : List String) : List MEvent :=
  if fps.length = 0 then [] else [MEvent.saddFps fps, MEvent.expireFps]

/-- Effect of one event on the modelled Redis state (`sadd` adds members
to a set, creating it when absent; everything else leaves state alone). -/
def applyEvent (st : RedisState) : MEvent → RedisState
  | MEvent.saddIds ids => { st with seenIds := some (st.seenIds.getD [] ++ ids) }
  | MEvent.saddFps fps => { st with seenFps := some (st.seenFps.getD [] ++ fps) }
  | _ => st

def applyEvents (st : RedisState) (evs : List MEvent) : RedisState :=
  evs.foldl applyEvent st

/-- Events that write to (or refresh expiry of) a Redis key. -/
def isStoreWrite : MEvent → Bool
  | MEvent.saddIds _ => true
  | MEvent.expireIds => true
  | MEvent.saddFps _ => true
  | MEvent.expireFps => true
  | _ => false

/-- Events touching the identity key specifically. -/
def isIdKeyWrite : MEvent → Bool
  | MEvent.saddIds _ => true
  | MEvent.expireIds => true
  | _ => false

def isZeroMsg : MEvent → Bool
  | MEvent.notifyZero => true
  | _ => false

def isInitMsg : MEvent → Bool
  | MEvent.notifyInit _ _ => true
  | _ => false

/-- `allListings.filter((l) => !seenIds.has(l.id))` from `src/index.ts`
line 111: the new-by-id listings. -/
def newByIdOf (seenIds : List String) (ls : List Listing) : List Listing :=
  ls.filter (fun l => !(seenIds.contains l.id))

/-- The classification loop of `src/index.ts` lines 117-126: push each
new-by-id listing onto `reposts` when its fingerprint is already seen,
onto `genuinelyNew` otherwise.  Returns `(genuinelyNew, reposts)`. -/
def classifyNew (fps : List String) : List Listing → List Listing × List Listing
  | [] => ([], [])
  | l :: rest =>
    let p := classifyNew fps rest
    if fps.contains (getFingerprint l) then (p.1, l :: p.2) else (l :: p.1, p.2)

/-- The genuinely-new output of the run's classification. -/
def genuinelyNewOf (st : RedisState) (ls : List Listing) : List Listing :=
  (classifyNew (getSeenFingerprints st) (newByIdOf (getSeenIds st) ls)).1

/-- The repost output of the run's classification. -/
def repostsOf (st : RedisState) (ls : List Listing) : List Listing :=
  (classifyNew (getSeenFingerprints st) (newByIdOf (getSeenIds st) ls)).2

/-- The comparison / persist / dispatch block of `main` (`src/index.ts`
lines 106-141): find the new-by-id listings; when there are none, do
nothing; otherwise classify them, write all their ids to the identity
set, and only then (when at least one is genuinely new) dispatch the
genuinely-new ones. -/
def mainCompare (st : RedisState) (allListings : List Listing) : List MEvent :=
  let newByIdListings := newByIdOf (getSeenIds st) allListings
  if newByIdListings.length = 0 then []
  else
    let genuinelyNew := (classifyNew (getSeenFingerprints st) newByIdListings).1
    addSeenIdsEvents (newByIdListings.map (fun l => l.id))
      ++ (if 0 < genuinelyNew.length then [MEvent.dispatchNew genuinelyNew] else [])

/-- `main` from `src/index.ts`, lines 88-148, after the aggregation loop:
the zero-listings check, the first-run seeding path, and otherwise the
comparison block followed by the unconditional fingerprint re-sync of the
whole aggregated batch.  Notification sends issued directly by `main` are
modelled as events (the run-level model assumes the transport succeeds). -/
def mainCore (urlCount : Nat) (st : RedisState) (allListings : List Listing) :
    List MEvent :=
  if allListings.length = 0 then
    [MEvent.notifyZero]
  else if !(hasSeenIds st) then
    addSeenIdsEvents (allListings.map (fun l => l.id))
      ++ addSeenFpsEvents (allListings.map getFingerprint)
      ++ [MEvent.notifyInit allListings.length urlCount]
  else
    mainCompare st allListings
      ++ addSeenFpsEvents (allListings.map getFingerprint)

/-- The configuration surface read by `src/index.ts` from `process.env`.
`none` models an unset variable. -/
structure Env where
  upstashUrl : Option String
  upstashToken : Option String
  telegramBotToken : Option String
  telegramChatId : Option String
  njuskaloUrls : Option String
  indexHrUrls : Option String
  oglasnikUrls : Option String
deriving DecidableEq

/-- JavaScript truthiness of `process.env[key]`: unset and empty string
are falsy. -/
def truthy : Option String → Bool
  | none => false
  | some s => !(s == "")

def REQUIRED_ENV_VARS : List String :=
  ["UPSTASH_REDIS_REST_URL", "UPSTASH_REDIS_REST_TOKEN",
   "TELEGRAM_BOT_TOKEN", "TELEGRAM_CHAT_ID"]

def envGet (env : Env) : String → Option String
  | "UPSTASH_REDIS_REST_URL" => env.upstashUrl
  | "UPSTASH_REDIS_REST_TOKEN" => env.upstashToken
  | "TELEGRAM_BOT_TOKEN" => env.telegramBotToken
  | "TELEGRAM_CHAT_ID" => env.telegramChatId
  | "NJUSKALO_URLS" => env.njuskaloUrls
  | "INDEX_HR_URLS" => env.indexHrUrls
  | "OGLASNIK_HR_URLS" => env.oglasnikUrls
  | _ => none

/-- `validateEnv` from `src/index.ts` lines 25-37: every required
credential variable must be truthy, and at least one of the three URL
variables must be truthy. -/
def validateEnv (env : Env) : Except String Unit :=
  let missing := REQUIRED_ENV_VARS.filter (fun k => !(truthy (envGet env k)))
  if 0 < missing.length then
    Except.error ("Missing required environment variables: "
      ++ String.intercalate ", " missing)
  else if !(truthy env.njuskaloUrls) && !(truthy env.indexHrUrls)
      && !(truthy env.oglasnikUrls) then
    Except.error
      "At least one of NJUSKALO_URLS, INDEX_HR_URLS, or OGLASNIK_HR_URLS must be set"
  else
    Except.ok ()

/-- JavaScript `split("|||")` over the character list: cut at each
leftmost non-overlapping occurrence of three consecutive pipes.  The
second argument accumulates the current piece in reverse. -/
def splitOnTriplePipe : List Char → List Char → List (List Char)
  | [], cur => [cur.reverse]
  | '|' :: '|' :: '|' :: rest, cur => cur.reverse :: splitOnTriplePipe rest []
  | c :: rest, cur => splitOnTriplePipe rest (c :: cur)

/-- One URL variable parsed as in `collectUrls`: split on the `|||`
delimiter, trim each piece, keep the truthy (non-empty) ones. -/
def splitUrls (s : String) : List String :=
  (((splitOnTriplePipe s.data []).map
      (fun cs => jsTrimStr (String.mk cs)))).filter (fun u => !(u == ""))

/-- `collectUrls` from `src/index.ts` lines 39-61. -/
def collectUrls (env : Env) : List String :=
  (if truthy env.njuskaloUrls then splitUrls (env.njuskaloUrls.getD "") else [])
    ++ (if truthy env.indexHrUrls then splitUrls (env.indexHrUrls.getD "") else [])
    ++ (if truthy env.oglasnikUrls then splitUrls (env.oglasnikUrls.getD "") else [])

/-- The aggregation loop of `src/index.ts` lines 73-84: scrape each URL
in order, inserting each listing into the id-keyed map when its id is not
yet present (so the first-seen record per id is kept, in insertion
order).  A scrape failure propagates and aborts the run.  `scrape` is the
(already-retried) result of `scrapeListings` per URL. -/
def aggregateLoop (scrape : String → Except String (List Listing)) :
    List String → List Listing → List MEvent × Except String (List Listing)
  | [], acc => ([], Except.ok acc)
  | u :: rest, acc =>
    match scrape u with
    | Except.error e => ([MEvent.fetch u], Except.error e)
    | Except.ok ls =>
      let acc2 := ls.foldl
        (fun a l => if a.any (fun x => x.id == l.id) then a else a ++ [l]) acc
      let r := aggregateLoop scrape rest acc2
      (MEvent.fetch u :: r.1, r.2)

/-- `main` from `src/index.ts` lines 63-149: validate, collect URLs,
aggregate across sources, then `mainCore`.  Returns the event trace and
the run outcome (`Except.error` models an uncaught exception). -/
def mainFull (env : Env) (scrape : String → Except String (List Listing))
    (st : RedisState) : List MEvent × Except String Unit :=
  match validateEnv env with
  | Except.error e => ([], Except.error e)
  | Except.ok _ =>
    let urls := collectUrls env
    let r := aggregateLoop scrape urls []
    match r.2 with
    | Except.error e => (r.1, Except.error e)
    | Except.ok allListings =>
      (r.1 ++ mainCore urls.length st allListings, Except.ok ())

/-- The process exit contract of `src/index.ts` lines 161-166: normal
completion exits 0, an uncaught error exits 1 (after a best-effort error
notification). -/
def runProcess (env : Env) (scrape : String → Except String (List Listing))
    (st : RedisState) : Nat :=
  match (mainFull env scrape st).2 with
  | Except.ok _ => 0
  | Except.error _ => 1

/-- Messages sent by the notification dispatcher (`src/notifier.ts`). -/
inductive Msg where
  | newListing (l : Listing)
  | summary (n : Nat)
deriving DecidableEq

/-- Observable events of `notifyNewListings`: transport send attempts
(with their success flag), the logged per-listing failures, and the
pacing delays. -/
inductive NEvent where
  | send (m : Msg) (ok : Bool)
  | logSendFailure (id : String)
  | wait (ms : Nat)
deriving DecidableEq

/-- The per-listing loop of `notifyNewListings` (`src/notifier.ts` lines
53-60): each listing's send is attempted inside try/catch; a failure is
logged and the loop continues; the 500 ms delay runs only after a
successful send (it sits inside the try block).  `fails k` tells whether
the k-th transport send of this dispatch fails; `k` is the index of the
next send. -/
def sendListingsLoop (fails : Nat → Bool) : Nat → List Listing → List NEvent
  | _, [] => []
  | k, l :: rest =>
    if fails k then
      NEvent.send (Msg.newListing l) false :: NEvent.logSendFailure l.id
        :: sendListingsLoop fails (k + 1) rest
    else
      NEvent.send (Msg.newListing l) true :: NEvent.wait 500
        :: sendListingsLoop fails (k + 1) rest

/-- `notifyNewListings` from `src/notifier.ts` lines 45-61: when five or
more listings are given, one summary send (not wrapped in try/catch, so
its failure propagates as `Except.error`) followed by a 500 ms delay;
then the per-listing loop. -/
def notifyNewListings (fails : Nat → Bool) (listings : List Listing) :
    List NEvent × Except Unit Unit :=
  if 5 ≤ listings.length then
    if fails 0 then
      ([NEvent.send (Msg.summary listings.length) false], Except.error ())
    else
      (NEvent.send (Msg.summary listings.length) true :: NEvent.wait 500
        :: sendListingsLoop fails 1 listings, Except.ok ())
  else
    (sendListingsLoop fails 0 listings, Except.ok ())

def isSend : NEvent → Bool
  | NEvent.send _ _ => true
  | _ => false

def isListingSend : NEvent → Bool
  | NEvent.send (Msg.newListing _) _ => true
  | _ => false

def listingSendOf : NEvent → Option Listing
  | NEvent.send (Msg.newListing l) _ => some l
  | _ => none

/-- The claimed delay discipline: every pacing delay in the trace is
immediately preceded and immediately followed by a per-listing send. -/
def okDelaysAux : Option NEvent → List NEvent → Bool
  | _, [] => true
  | prev, e :: rest =>
    (match e with
     | NEvent.wait _ =>
       (prev.elim false isListingSend)
         && (match rest with
             | r :: _ => isListingSend r
             | [] => false)
     | _ => true)
      && okDelaysAux (some e) rest

def okDelays (tr : List NEvent) : Bool := okDelaysAux none tr

/-- Every transport send in the trace is immediately followed by a
pacing delay. -/
def sendsFollowedByWait : List NEvent → Bool
  | [] => true
  | e :: rest =>
    (if isSend e then
      (match rest with
       | NEvent.wait _ :: _ => true
       | _ => false)
     else true)
      && sendsFollowedByWait rest

/-- Observable events of the retry loop of `scrapeListings`. -/
inductive SEvent where
  | attempt (n : Nat)
  | wait (ms : Nat)
deriving DecidableEq

def isAttemptEvent : SEvent → Bool
  | SEvent.attempt _ => true
  | _ => false

/-- The retry state machine of `scrapeListings` (`src/scraper.ts` lines
34-67): at most two attempts of the adapter body (`page.goto` +
extraction); on first failure wait the fixed 10 s retry delay and try
exactly once more; on second failure throw an error naming the URL and
the last underlying failure.  `att n` is the outcome of attempt `n`. -/
def scrapeListings (att : Nat → Except String (List Listing)) (url : String) :
    List SEvent × Except String (List Listing) :=
  match att 1 with
  | Except.ok ls => ([SEvent.attempt 1], Except.ok ls)
  | Except.error _ =>
    match att 2 with
    | Except.ok ls =>
      ([SEvent.attempt 1, SEvent.wait 10000, SEvent.attempt 2], Except.ok ls)
    | Except.error e2 =>
      ([SEvent.attempt 1, SEvent.wait 10000, SEvent.attempt 2],
        Except.error ("Failed to scrape " ++ url ++ " after 2 attempts: " ++ e2))

/-! ### Concrete fixtures used by witnesses and counterexamples -/

def demoL (i t p : String) : Listing :=
  { id := i, title := t, price := p, url := "https://example.com/x"
    location := none, imageUrl := none }

def stSeen1 : RedisState := { seenIds := some ["1"], seenFps := some [] }

def stFresh : RedisState := { seenIds := none, seenFps := none }

def demoBatch : List Listing :=
  [demoL "1" "house a" "100", demoL "2" "house b" "200"]

def fiveBatch : List Listing :=
  [demoL "1" "a" "1", demoL "2" "b" "2", demoL "3" "c" "3",
   demoL "4" "d" "4", demoL "5" "e" "5"]

def sixBatch : List Listing := fiveBatch ++ [demoL "6" "f" "6"]

def envOk : Env :=
  { upstashUrl := some "u", upstashToken := some "t", telegramBotToken := some "b"
    telegramChatId := some "c", njuskaloUrls := some "https://a"
    indexHrUrls := none, oglasnikUrls := none }

def envBlankUrls : Env :=
  { upstashUrl := some "u", upstashToken := some "t", telegramBotToken := some "b"
    telegramChatId := some "c", njuskaloUrls := some " "
    indexHrUrls := none, oglasnikUrls := none }

def envMissingToken : Env :=
  { upstashUrl := some "u", upstashToken := some "t", telegramBotToken := none
    telegramChatId := some "c", njuskaloUrls := some "https://a"
    indexHrUrls := none, oglasnikUrls := none }

def scrapeEmpty : String → Except String (List Listing) := fun _ => Except.ok []

/-! ### Lemmas about the classification loop -/

theorem classifyNew_cons_pos (fps : List String) (a : Listing) (rest : List Listing)
    (h : fps.contains (getFingerprint a) = true) :
    classifyNew fps (a :: rest)
      = ((classifyNew fps rest).1, a :: (classifyNew fps rest).2) := by
  simp [classifyNew, h]
  simpa using h

theorem classifyNew_cons_neg (fps : List String) (a : Listing) (rest : List Listing)
    (h : fps.contains (getFingerprint a) = false) :
    classifyNew fps (a :: rest)
      = (a :: (classifyNew fps rest).1, (classifyNew fps rest).2) := by
  simp [classifyNew, h]
  simpa using h

theorem mem_classifyNew_fst (fps : List String) (l : Listing) :
    ∀ ls : List Listing,
      l ∈ (classifyNew fps ls).1
        ↔ l ∈ ls ∧ fps.contains (getFingerprint l) = false
  | [] => by simp [classifyNew]
  | a :: rest => by
    have ih := mem_classifyNew_fst fps l rest
    by_cases h : fps.contains (getFingerprint a) = true
    · rw [classifyNew_cons_pos fps a rest h]
      rw [ih]
      constructor
      · rintro ⟨hm, hc⟩
        exact ⟨List.mem_cons_of_mem _ hm, hc⟩
      · rintro ⟨hm, hc⟩
        rcases List.mem_cons.mp hm with rfl | hm2
        · rw [h] at hc
          exact absurd hc (by simp)
        · exact ⟨hm2, hc⟩
    · rw [classifyNew_cons_neg fps a rest (by simpa using h)]
      constructor
      · intro hm
        rcases List.mem_cons.mp hm with rfl | hm2
        · exact ⟨List.mem_cons_self _ _, by simpa using h⟩
        · rcases ih.mp hm2 with ⟨hm3, hc⟩
          exact ⟨List.mem_cons_of_mem _ hm3, hc⟩
      · rintro ⟨hm, hc⟩
        rcases List.mem_cons.mp hm with rfl | hm2
        · exact List.mem_cons_self _ _
        · exact List.mem_cons_of_mem _ (ih.mpr ⟨hm2, hc⟩)

theorem mem_classifyNew_snd (fps : List String) (l : Listing) :
    ∀ ls : List Listing,
      l ∈ (classifyNew fps ls).2
        ↔ l ∈ ls ∧ fps.contains (getFingerprint l) = true
  | [] => by simp [classifyNew]
  | a :: rest => by
    have ih := mem_classifyNew_snd fps l rest
    by_cases h : fps.contains (getFingerprint a) = true
    · rw [classifyNew_cons_pos fps a rest h]
      constructor
      · intro hm
        rcases List.mem_cons.mp hm with rfl | hm2
        · exact ⟨List.mem_cons_self _ _, h⟩
        · rcases ih.mp hm2 with ⟨hm3, hc⟩
          exact ⟨List.mem_cons_of_mem _ hm3, hc⟩
      · rintro ⟨hm, hc⟩
        rcases List.mem_cons.mp hm with rfl | hm2
        · exact List.mem_cons_self _ _
        · exact List.mem_cons_of_mem _ (ih.mpr ⟨hm2, hc⟩)
    · rw [classifyNew_cons_neg fps a rest (by simpa using h)]
      rw [ih]
      constructor
      · rintro ⟨hm, hc⟩
        exact ⟨List.mem_cons_of_mem _ hm, hc⟩
      · rintro ⟨hm, hc⟩
        rcases List.mem_cons.mp hm with rfl | hm2
        · exact absurd hc h
        · exact ⟨hm2, hc⟩

theorem mem_newByIdOf (seen : List String) (ls : List Listing) (l : Listing) :
    l ∈ newByIdOf seen ls ↔ l ∈ ls ∧ seen.contains l.id = false := by
  rw [newByIdOf, List.mem_filter]
  simp

/-! ### Claim C1 -/

/-- C1: on a non-first run, classification partitions the aggregated
listings: a listing whose id is in the persisted identity set appears in
neither the genuinely-new nor the repost output; a listing whose id is
absent is a repost exactly when its fingerprint is in the persisted
fingerprint set, and genuinely new exactly otherwise. -/
theorem c1_classification_partition (st : RedisState) (ls : List Listing)
    (l : Listing) (h1 : hasSeenIds st = true) (hl : l ∈ ls) :
    ((getSeenIds st).contains l.id = true →
      l ∉ genuinelyNewOf st ls ∧ l ∉ repostsOf st ls) ∧
    ((getSeenIds st).contains l.id = false →
      ((l ∈ repostsOf st ls
          ↔ (getSeenFingerprints st).contains (getFingerprint l) = true) ∧
       (l ∈ genuinelyNewOf st ls
          ↔ (getSeenFingerprints st).contains (getFingerprint l) = false))) := by
  constructor
  · intro hid
    constructor
    · intro hmem
      have h2 := ((mem_classifyNew_fst _ _ _).mp hmem).1
      have h3 := ((mem_newByIdOf _ _ _).mp h2).2
      rw [hid] at h3
      exact absurd h3 (by simp)
    · intro hmem
      have h2 := ((mem_classifyNew_snd _ _ _).mp hmem).1
      have h3 := ((mem_newByIdOf _ _ _).mp h2).2
      rw [hid] at h3
      exact absurd h3 (by simp)
  · intro hid
    have hnb : l ∈ newByIdOf (getSeenIds st) ls :=
      (mem_newByIdOf _ _ _).mpr ⟨hl, hid⟩
    constructor
    · rw [repostsOf, mem_classifyNew_snd]
      constructor
      · rintro ⟨_, hc⟩
        exact hc
      · intro hc
        exact ⟨hnb, hc⟩
    · rw [genuinelyNewOf, mem_classifyNew_fst]
      constructor
      · rintro ⟨_, hc⟩
        exact hc
      · intro hc
        exact ⟨hnb, hc⟩

/-- Witness for C1: with identity set `{"1"}`, the listing with id `1`
is dropped from both classification outputs. -/
theorem c1_classification_partition_witness :
    demoL "1" "a" "9" ∉ genuinelyNewOf stSeen1 [demoL "1" "a" "9"] ∧
    demoL "1" "a" "9" ∉ repostsOf stSeen1 [demoL "1" "a" "9"] :=
  (c1_classification_partition stSeen1 [demoL "1" "a" "9"] (demoL "1" "a" "9")
    rfl (by simp)).1 (by decide)

/-! ### Trace and state lemmas for the run controller -/

theorem applyEvents_append (st : RedisState) (t1 t2 : List MEvent) :
    applyEvents st (t1 ++ t2) = applyEvents (applyEvents st t1) t2 := by
  simp [applyEvents, List.foldl_append]

theorem getSeenFingerprints_sync (st : RedisState) (F : List String)
    (hF : F ≠ []) :
    getSeenFingerprints (applyEvents st (addSeenFpsEvents F))
      = getSeenFingerprints st ++ F := by
  rw [addSeenFpsEvents, if_neg (by simpa [List.length_eq_zero] using hF)]
  simp [applyEvents, applyEvent, getSeenFingerprints]

theorem mainCore_nonfirst (n : Nat) (st : RedisState) (ls : List Listing)
    (h1 : hasSeenIds st = true) (hne : ls ≠ []) :
    mainCore n st ls
      = mainCompare st ls ++ addSeenFpsEvents (ls.map getFingerprint) := by
  simp only [mainCore]
  rw [if_neg (by simpa [List.length_eq_zero] using hne), h1]
  simp

theorem mainCompare_eq_nil (st : RedisState) (ls : List Listing)
    (h : newByIdOf (getSeenIds st) ls = []) :
    mainCompare st ls = [] := by
  simp only [mainCompare]
  rw [h]
  simp

theorem mainCompare_eq_cons (st : RedisState) (ls : List Listing)
    (h : newByIdOf (getSeenIds st) ls ≠ []) :
    mainCompare st ls
      = MEvent.saddIds ((newByIdOf (getSeenIds st) ls).map (fun l => l.id))
        :: MEvent.expireIds
        :: (if 0 < (genuinelyNewOf st ls).length
            then [MEvent.dispatchNew (genuinelyNewOf st ls)] else []) := by
  have hlen : ¬ ((newByIdOf (getSeenIds st) ls).length = 0) := by
    simpa [List.length_eq_zero] using h
  have hmap : ¬ (((newByIdOf (getSeenIds st) ls).map fun l => l.id).length = 0) := by
    simpa [List.length_eq_zero] using h
  simp only [mainCompare, genuinelyNewOf]
  rw [if_neg hlen]
  rw [addSeenIdsEvents, if_neg hmap]
  simp

/-! ### Claim C2 -/

/-- C2: on a first run (identity key never written) with a non-empty
batch, the full batch is seeded: the run writes the ids and fingerprints
of the whole batch to the two sets, emits exactly one initialization
summary message, and dispatches no genuinely-new notification. -/
theorem c2_first_run_seeds (n : Nat) (st : RedisState) (ls : List Listing)
    (h0 : hasSeenIds st = false) (hne : ls ≠ []) :
    mainCore n st ls
      = [MEvent.saddIds (ls.map fun l => l.id), MEvent.expireIds,
         MEvent.saddFps (ls.map getFingerprint), MEvent.expireFps,
         MEvent.notifyInit ls.length n] ∧
    (∀ L, MEvent.dispatchNew L ∉ mainCore n st ls) ∧
    (mainCore n st ls).countP isInitMsg = 1 ∧
    ∀ l ∈ ls, l.id ∈ getSeenIds (applyEvents st (mainCore n st ls)) ∧
      getFingerprint l ∈ getSeenFingerprints (applyEvents st (mainCore n st ls)) := by
  have htr : mainCore n st ls
      = [MEvent.saddIds (ls.map fun l => l.id), MEvent.expireIds,
         MEvent.saddFps (ls.map getFingerprint), MEvent.expireFps,
         MEvent.notifyInit ls.length n] := by
    have hlen : ¬ (ls.length = 0) := by simpa [List.length_eq_zero] using hne
    have hmap : ¬ ((ls.map fun l => l.id).length = 0) := by
      simpa [List.length_eq_zero] using hne
    have hfp : ¬ ((ls.map getFingerprint).length = 0) := by
      simpa [List.length_eq_zero] using hne
    simp only [mainCore]
    rw [if_neg hlen, h0]
    rw [addSeenIdsEvents, if_neg hmap]
    rw [addSeenFpsEvents, if_neg hfp]
    simp
  refine ⟨htr, ?_, ?_, ?_⟩
  · intro L
    rw [htr]
    simp
  · rw [htr]
    simp [List.countP_cons, isInitMsg]
  · intro l hl
    rw [htr]
    constructor
    · simp [applyEvents, applyEvent, getSeenIds]
      exact Or.inr ⟨l, hl, rfl⟩
    · simp [applyEvents, applyEvent, getSeenFingerprints]
      exact Or.inr ⟨l, hl, rfl⟩

/-- Witness for C2: a first run over a concrete two-listing batch seeds
exactly the batch and sends one initialization message. -/
theorem c2_first_run_seeds_witness :
    mainCore 1 stFresh demoBatch
      = [MEvent.saddIds (demoBatch.map fun l => l.id), MEvent.expireIds,
         MEvent.saddFps (demoBatch.map getFingerprint), MEvent.expireFps,
         MEvent.notifyInit demoBatch.length 1] :=
  (c2_first_run_seeds 1 stFresh demoBatch rfl (by decide)).1

/-! ### Claim C4 -/

/-- C4: after every non-first run that completes, the persisted
fingerprint set contains the fingerprint of every listing of that run's
aggregated batch, not only of the new ones. -/
theorem c4_fingerprint_set_covers_batch (n : Nat) (st : RedisState)
    (ls : List Listing) (h1 : hasSeenIds st = true) :
    ∀ l ∈ ls, getFingerprint l
      ∈ getSeenFingerprints (applyEvents st (mainCore n st ls)) := by
  intro l hl
  have hne : ls ≠ [] := List.ne_nil_of_mem hl
  rw [mainCore_nonfirst n st ls h1 hne, applyEvents_append,
    getSeenFingerprints_sync _ _ (by simpa using hne)]
  exact List.mem_append.mpr (Or.inr (List.mem_map_of_mem _ hl))

/-- Witness for C4 at a concrete non-first run: the fingerprint of a
listing whose id was already seen still ends up in the fingerprint set. -/
theorem c4_fingerprint_set_covers_batch_witness :
    getFingerprint (demoL "1" "house a" "100")
      ∈ getSeenFingerprints (applyEvents stSeen1 (mainCore 1 stSeen1 demoBatch)) :=
  c4_fingerprint_set_covers_batch 1 stSeen1 demoBatch rfl
    (demoL "1" "house a" "100") (by decide)

/-! ### Claim C10 -/

/-- C10: on a non-first run in which every aggregated listing's id is
already in the identity set, the identity key is not touched at all (no
`sadd`, no expiry refresh), while the fingerprint set is still re-synced
with the full batch. -/
theorem c10_no_id_writes_when_all_seen (n : Nat) (st : RedisState)
    (ls : List Listing) (h1 : hasSeenIds st = true) (hne : ls ≠ [])
    (hall : ∀ l ∈ ls, (getSeenIds st).contains l.id = true) :
    mainCore n st ls
      = [MEvent.saddFps (ls.map getFingerprint), MEvent.expireFps] ∧
    (∀ e ∈ mainCore n st ls, isIdKeyWrite e = false) ∧
    getSeenFingerprints (applyEvents st (mainCore n st ls))
      = getSeenFingerprints st ++ ls.map getFingerprint := by
  have hnb : newByIdOf (getSeenIds st) ls = [] := by
    rw [newByIdOf, List.filter_eq_nil_iff]
    intro a ha
    rw [hall a ha]
    simp
  have hfp : ¬ ((ls.map getFingerprint).length = 0) := by
    simpa [List.length_eq_zero] using hne
  have htr : mainCore n st ls
      = [MEvent.saddFps (ls.map getFingerprint), MEvent.expireFps] := by
    rw [mainCore_nonfirst n st ls h1 hne, mainCompare_eq_nil st ls hnb]
    rw [addSeenFpsEvents, if_neg hfp]
    simp
  refine ⟨htr, ?_, ?_⟩
  · rw [htr]
    intro e he
    rcases List.mem_cons.mp he with rfl | he2
    · rfl
    · rcases List.mem_cons.mp he2 with rfl | he3
      · rfl
      · cases he3
  · rw [htr]
    simp [applyEvents, applyEvent, getSeenFingerprints]

/-- Witness for C10: concrete non-first run whose single listing id is
already seen; only the two fingerprint-key events are emitted. -/
theorem c10_no_id_writes_when_all_seen_witness :
    mainCore 1 stSeen1 [demoL "1" "a" "9"]
      = [MEvent.saddFps ([demoL "1" "a" "9"].map getFingerprint),
         MEvent.expireFps] :=
  (c10_no_id_writes_when_all_seen 1 stSeen1 [demoL "1" "a" "9"]
    rfl (by decide) (by decide)).1

/-! ### Claim C3 -/

/-- C3: on the new-listing path of a non-first run, the identity-set
write of all new-by-id ids occurs strictly before any dispatch event in
the run's trace, and every listing reaching dispatch already has its id
in the identity set at that point of the trace. -/
theorem c3_ids_written_before_dispatch (n : Nat) (st : RedisState)
    (ls : List Listing) (h1 : hasSeenIds st = true) :
    ∀ k L, (mainCore n st ls).get? k = some (MEvent.dispatchNew L) →
      (∃ j, j < k ∧ (mainCore n st ls).get? j
          = some (MEvent.saddIds
              ((newByIdOf (getSeenIds st) ls).map fun l => l.id))) ∧
      ∀ l ∈ L, l.id ∈ getSeenIds (applyEvents st ((mainCore n st ls).take k)) := by
  intro k L hk
  by_cases hnil : ls = []
  · subst hnil
    have htr : mainCore n st [] = [MEvent.notifyZero] := by simp [mainCore]
    rw [htr] at hk
    rcases k with _ | k
    · simp at hk
    · simp at hk
  · have hne : ls ≠ [] := hnil
    have hfp : ¬ ((ls.map getFingerprint).length = 0) := by
      simpa [List.length_eq_zero] using hne
    by_cases hnb : newByIdOf (getSeenIds st) ls = []
    · have htr : mainCore n st ls
          = [MEvent.saddFps (ls.map getFingerprint), MEvent.expireFps] := by
        rw [mainCore_nonfirst n st ls h1 hne, mainCompare_eq_nil st ls hnb]
        rw [addSeenFpsEvents, if_neg hfp]
        simp
      rw [htr] at hk
      rcases k with _ | _ | k
      · simp at hk
      · simp at hk
      · simp at hk
    · by_cases hg : 0 < (genuinelyNewOf st ls).length
      · have htr : mainCore n st ls
            = [MEvent.saddIds ((newByIdOf (getSeenIds st) ls).map fun l => l.id),
               MEvent.expireIds,
               MEvent.dispatchNew (genuinelyNewOf st ls),
               MEvent.saddFps (ls.map getFingerprint), MEvent.expireFps] := by
          rw [mainCore_nonfirst n st ls h1 hne, mainCompare_eq_cons st ls hnb,
            if_pos hg, addSeenFpsEvents, if_neg hfp]
          simp
        rw [htr] at hk ⊢
        rcases k with _ | _ | _ | _ | _ | k
        · simp at hk
        · simp at hk
        · simp only [List.get?] at hk
          have hL : genuinelyNewOf st ls = L := by
            have := Option.some.inj hk
            exact (MEvent.dispatchNew.inj this)
          subst hL
          refine ⟨⟨0, by omega, rfl⟩, ?_⟩
          intro l hl
          have hlnb : l ∈ newByIdOf (getSeenIds st) ls :=
            ((mem_classifyNew_fst _ _ _).mp hl).1
          simp only [List.take, applyEvents, List.foldl, applyEvent, getSeenIds]
          simp only [Option.getD_some]
          exact List.mem_append.mpr (Or.inr (List.mem_map_of_mem _ hlnb))
        · simp at hk
        · simp at hk
        · simp at hk
      · have htr : mainCore n st ls
            = [MEvent.saddIds ((newByIdOf (getSeenIds st) ls).map fun l => l.id),
               MEvent.expireIds,
               MEvent.saddFps (ls.map getFingerprint), MEvent.expireFps] := by
          rw [mainCore_nonfirst n st ls h1 hne, mainCompare_eq_cons st ls hnb,
            if_neg hg, addSeenFpsEvents, if_neg hfp]
          simp
        rw [htr] at hk
        rcases k with _ | _ | _ | _ | k
        · simp at hk
        · simp at hk
        · simp at hk
        · simp at hk
        · simp at hk

/-- Witness for C3 at a concrete dispatching run: the dispatched listing's
id is already in the identity set at the dispatch point of the trace. -/
theorem c3_ids_written_before_dispatch_witness :
    (demoL "2" "x" "5").id ∈ getSeenIds
      (applyEvents stSeen1 ((mainCore 1 stSeen1 [demoL "2" "x" "5"]).take 2)) :=
  ((c3_ids_written_before_dispatch 1 stSeen1 [demoL "2" "x" "5"] rfl)
    2 [demoL "2" "x" "5"] (by decide)).2 (demoL "2" "x" "5") (by decide)

/-! ### Lemmas about the full run (validation, fetching, aggregation) -/

theorem aggregateLoop_events_fetch (scrape : String → Except String (List Listing)) :
    ∀ (urls : List String) (acc : List Listing),
      ∀ e ∈ (aggregateLoop scrape urls acc).1, ∃ u, e = MEvent.fetch u
  | [], acc => by simp [aggregateLoop]
  | u :: rest, acc => by
    intro e he
    cases hscr : scrape u with
    | error e1 =>
      simp only [aggregateLoop, hscr] at he
      simp at he
      exact ⟨u, he⟩
    | ok ls =>
      simp only [aggregateLoop, hscr] at he
      rcases List.mem_cons.mp he with rfl | h2
      · exact ⟨u, rfl⟩
      · exact aggregateLoop_events_fetch scrape rest _ e h2

theorem applyEvents_id_of_fetch (st : RedisState) :
    ∀ evs : List MEvent, (∀ e ∈ evs, ∃ u, e = MEvent.fetch u) →
      applyEvents st evs = st
  | [], _ => rfl
  | e :: rest, h => by
    obtain ⟨u, rfl⟩ := h e (List.mem_cons_self _ _)
    have htail : ∀ e ∈ rest, ∃ u, e = MEvent.fetch u :=
      fun e he => h e (List.mem_cons_of_mem _ he)
    show applyEvents (applyEvent st (MEvent.fetch u)) rest = st
    exact applyEvents_id_of_fetch st rest htail

/-! ### Claim C8 -/

/-- C8: when validation passes and the (all-successful) fetches aggregate
to zero unique listings, the run emits exactly one zero-listings warning,
performs no store writes, leaves the state untouched, and ends
successfully with exit code 0. -/
theorem c8_zero_listings (env : Env)
    (scrape : String → Except String (List Listing)) (st : RedisState)
    (evs : List MEvent) (hv : validateEnv env = Except.ok ())
    (hagg : aggregateLoop scrape (collectUrls env) [] = (evs, Except.ok [])) :
    mainFull env scrape st = (evs ++ [MEvent.notifyZero], Except.ok ()) ∧
    runProcess env scrape st = 0 ∧
    applyEvents st (mainFull env scrape st).1 = st ∧
    (mainFull env scrape st).1.countP isZeroMsg = 1 ∧
    ∀ e ∈ (mainFull env scrape st).1, isStoreWrite e = false := by
  have hfe : ∀ e ∈ evs, ∃ u, e = MEvent.fetch u := by
    intro e he
    have h2 := aggregateLoop_events_fetch scrape (collectUrls env) [] e
    rw [hagg] at h2
    exact h2 he
  have hmf : mainFull env scrape st = (evs ++ [MEvent.notifyZero], Except.ok ()) := by
    simp only [mainFull, hv, hagg]
    simp [mainCore]
  refine ⟨hmf, ?_, ?_, ?_, ?_⟩
  · simp [runProcess, hmf]
  · rw [hmf]
    show applyEvents st (evs ++ [MEvent.notifyZero]) = st
    rw [applyEvents_append, applyEvents_id_of_fetch st evs hfe]
    rfl
  · rw [hmf]
    show (evs ++ [MEvent.notifyZero]).countP isZeroMsg = 1
    rw [List.countP_append]
    have h0 : evs.countP isZeroMsg = 0 := by
      rw [List.countP_eq_zero]
      intro e he
      obtain ⟨u, rfl⟩ := hfe e he
      simp [isZeroMsg]
    rw [h0]
    rfl
  · rw [hmf]
    intro e he
    rcases List.mem_append.mp he with h2 | h2
    · obtain ⟨u, rfl⟩ := hfe e h2
      rfl
    · rcases List.mem_cons.mp h2 with rfl | h3
      · rfl
      · cases h3

/-- Witness for C8: a concrete valid configuration whose single source
fetch succeeds with zero listings exits 0 with one warning event. -/
theorem c8_zero_listings_witness :
    mainFull envOk scrapeEmpty stSeen1
      = ([MEvent.fetch "https://a", MEvent.notifyZero], Except.ok ()) ∧
    runProcess envOk scrapeEmpty stSeen1 = 0 :=
  ⟨(c8_zero_listings envOk scrapeEmpty stSeen1 [MEvent.fetch "https://a"]
      (by rfl) (by rfl)).1,
   (c8_zero_listings envOk scrapeEmpty stSeen1 [MEvent.fetch "https://a"]
      (by rfl) (by rfl)).2.1⟩

/-! ### Claim C9 (corrected) -/

/-- Counterexample to C9 as stated: with every credential set and
`NJUSKALO_URLS` set to a whitespace-only string, every configured
source-address list parses to zero addresses, yet validation succeeds
(it only checks string truthiness, not the parsed address count) and the
run proceeds to the zero-listings path, exiting 0. -/
theorem c9_counterexample :
    validateEnv envBlankUrls = Except.ok () ∧
    collectUrls envBlankUrls = [] ∧
    mainFull envBlankUrls scrapeEmpty stSeen1 = ([MEvent.notifyZero], Except.ok ()) ∧
    runProcess envBlankUrls scrapeEmpty stSeen1 = 0 :=
  ⟨by rfl, by rfl, by rfl, by rfl⟩

/-- C9 (amended): validation fails fatally — error outcome, empty event
trace (no fetch, no state access), exit code 1 — whenever a required
credential variable is unset or empty, or all three source-address
variables are unset or empty.  A source-address variable that is set but
non-empty passes validation even when it parses to zero addresses. -/
theorem c9_amended_validation (env : Env)
    (scrape : String → Except String (List Listing)) (st : RedisState)
    (h : REQUIRED_ENV_VARS.filter (fun k => !(truthy (envGet env k))) ≠ []
      ∨ (truthy env.njuskaloUrls = false ∧ truthy env.indexHrUrls = false
          ∧ truthy env.oglasnikUrls = false)) :
    validateEnv env ≠ Except.ok () ∧
    (mainFull env scrape st).1 = [] ∧
    runProcess env scrape st = 1 := by
  have hv : ∃ msg, validateEnv env = Except.error msg := by
    by_cases hm : REQUIRED_ENV_VARS.filter (fun k => !(truthy (envGet env k))) = []
    · rcases h with h | hw
      · exact absurd hm h
      · refine ⟨"At least one of NJUSKALO_URLS, INDEX_HR_URLS, or OGLASNIK_HR_URLS must be set", ?_⟩
        simp only [validateEnv]
        rw [hm]
        simp [hw.1, hw.2.1, hw.2.2]
    · refine ⟨"Missing required environment variables: "
          ++ String.intercalate ", "
            (REQUIRED_ENV_VARS.filter (fun k => !(truthy (envGet env k)))), ?_⟩
      simp only [validateEnv]
      rw [if_pos (List.length_pos.mpr hm)]
  obtain ⟨msg, hv⟩ := hv
  refine ⟨?_, ?_, ?_⟩
  · rw [hv]
    simp
  · simp only [mainFull, hv]
  · simp [runProcess, mainFull, hv]

/-- Witness for the amended C9: a missing Telegram token makes the run
fail fatally with no events. -/
theorem c9_amended_validation_witness :
    validateEnv envMissingToken ≠ Except.ok () ∧
    (mainFull envMissingToken scrapeEmpty stSeen1).1 = [] ∧
    runProcess envMissingToken scrapeEmpty stSeen1 = 1 :=
  c9_amended_validation envMissingToken scrapeEmpty stSeen1 (Or.inl (by decide))

/-! ### Lemmas about the notification dispatcher -/

theorem sendListingsLoop_filterMap (fails : Nat → Bool) :
    ∀ (ls : List Listing) (k : Nat),
      (sendListingsLoop fails k ls).filterMap listingSendOf = ls
  | [], _ => rfl
  | l :: rest, k => by
    by_cases h : fails k = true
    · simp only [sendListingsLoop, if_pos h, List.filterMap_cons, listingSendOf]
      simp [sendListingsLoop_filterMap fails rest (k + 1)]
    · simp only [sendListingsLoop, if_neg h, List.filterMap_cons, listingSendOf]
      simp [sendListingsLoop_filterMap fails rest (k + 1)]

theorem sendListingsLoop_countP_send (fails : Nat → Bool) :
    ∀ (ls : List Listing) (k : Nat),
      (sendListingsLoop fails k ls).countP isSend = ls.length
  | [], _ => rfl
  | l :: rest, k => by
    by_cases h : fails k = true
    · simp only [sendListingsLoop, if_pos h, List.countP_cons, isSend]
      simp [sendListingsLoop_countP_send fails rest (k + 1)]
    · simp only [sendListingsLoop, if_neg h, List.countP_cons, isSend]
      simp [sendListingsLoop_countP_send fails rest (k + 1)]

theorem sendListingsLoop_sendsFollowedByWait :
    ∀ (ls : List Listing) (k : Nat),
      sendsFollowedByWait (sendListingsLoop (fun _ => false) k ls) = true
  | [], _ => rfl
  | l :: rest, k => by
    simp only [sendListingsLoop, if_neg (by simp : ¬ ((fun _ : Nat => false) k = true))]
    simp only [sendsFollowedByWait, isSend]
    simp [sendListingsLoop_sendsFollowedByWait rest (k + 1)]

/-! ### Claim C5 (corrected) -/

/-- Counterexample to C5 as stated: with five listings and a transport
failing every send, the summary send — which `notifyNewListings` does
NOT wrap in try/catch — throws, and the error propagates to the caller
instead of being caught and logged. -/
theorem c5_counterexample :
    (notifyNewListings (fun _ => true) fiveBatch).2 = Except.error () := by
  rfl

/-- C5 (amended): per-listing send failures are isolated — whenever the
optional summary send does not fail (in particular whenever fewer than
five listings are given, since then no summary is sent), dispatch returns
normally for every pattern of per-listing transport failures, and every
listing's message is still attempted, exactly once each, in order.  A
failure of the summary send itself propagates (see the counterexample). -/
theorem c5_amended_dispatch_isolation (fails : Nat → Bool)
    (listings : List Listing) (h : 5 ≤ listings.length → fails 0 = false) :
    (notifyNewListings fails listings).2 = Except.ok () ∧
    (notifyNewListings fails listings).1.filterMap listingSendOf = listings := by
  by_cases h5 : 5 ≤ listings.length
  · have hf : ¬ (fails 0 = true) := by simp [h h5]
    rw [notifyNewListings, if_pos h5, if_neg hf]
    refine ⟨rfl, ?_⟩
    simp only [List.filterMap_cons, listingSendOf]
    exact sendListingsLoop_filterMap fails listings 1
  · rw [notifyNewListings, if_neg h5]
    exact ⟨rfl, sendListingsLoop_filterMap fails listings 0⟩

/-- Witness for the amended C5: the second transport send fails (the
first listing message), yet dispatch returns normally and all five
listings are attempted. -/
theorem c5_amended_dispatch_isolation_witness :
    (notifyNewListings (fun k => k == 1) fiveBatch).2 = Except.ok () ∧
    (notifyNewListings (fun k => k == 1) fiveBatch).1.filterMap listingSendOf
      = fiveBatch :=
  c5_amended_dispatch_isolation (fun k => k == 1) fiveBatch (fun _ => rfl)

/-! ### Claim C6 (corrected) -/

/-- Counterexample to C6 as stated: for six listings with a non-failing
transport the dispatcher does perform exactly 7 sends, but the pacing
delay is NOT applied only between listing messages: the trace contains a
delay immediately after the summary send (before the first listing
message) and another after the last listing message. -/
theorem c6_counterexample :
    (notifyNewListings (fun _ => false) sixBatch).1.countP isSend = 7 ∧
    okDelays (notifyNewListings (fun _ => false) sixBatch).1 = false := by
  exact ⟨by rfl, by rfl⟩

/-- C6 (amended): for n ≥ 5 listings with a non-failing transport the
dispatcher performs exactly n+1 transport sends — the summary first,
then exactly one message per listing, in order — and the pacing delay
follows the summary send and every listing send (hence it also sits
between the summary and the first listing message and after the last
message); no delay precedes the summary. -/
theorem c6_amended_pacing (listings : List Listing) (h : 5 ≤ listings.length) :
    (notifyNewListings (fun _ => false) listings).1.countP isSend
        = listings.length + 1 ∧
    (notifyNewListings (fun _ => false) listings).1.head?
        = some (NEvent.send (Msg.summary listings.length) true) ∧
    (notifyNewListings (fun _ => false) listings).1.filterMap listingSendOf
        = listings ∧
    sendsFollowedByWait (notifyNewListings (fun _ => false) listings).1 = true := by
  rw [notifyNewListings, if_pos h,
    if_neg (by simp : ¬ ((fun _ : Nat => false) 0 = true))]
  refine ⟨?_, rfl, ?_, ?_⟩
  · simp only [List.countP_cons, isSend]
    simp [sendListingsLoop_countP_send (fun _ => false) listings 1]
  · simp only [List.filterMap_cons, listingSendOf]
    exact sendListingsLoop_filterMap (fun _ => false) listings 1
  · simp only [sendsFollowedByWait, isSend]
    simp [sendListingsLoop_sendsFollowedByWait listings 1]

/-- Witness for the amended C6 on a concrete five-listing batch. -/
theorem c6_amended_pacing_witness :
    (notifyNewListings (fun _ => false) fiveBatch).1.countP isSend
        = fiveBatch.length + 1 ∧
    (notifyNewListings (fun _ => false) fiveBatch).1.head?
        = some (NEvent.send (Msg.summary fiveBatch.length) true) ∧
    (notifyNewListings (fun _ => false) fiveBatch).1.filterMap listingSendOf
        = fiveBatch ∧
    sendsFollowedByWait (notifyNewListings (fun _ => false) fiveBatch).1 = true :=
  c6_amended_pacing fiveBatch (by decide)

/-! ### Claim C7 -/

/-- C7: the fetch retry machine makes at most two adapter attempts: a
first-attempt success returns immediately (one attempt, no delay); a
first-attempt failure leads to exactly one further attempt after the
fixed 10 s delay; and when both attempts fail, the fetch throws an error
whose message names the source address and the last underlying failure. -/
theorem c7_scrape_retry (att : Nat → Except String (List Listing))
    (url : String) :
    (scrapeListings att url).1.countP isAttemptEvent ≤ 2 ∧
    (∀ ls, att 1 = Except.ok ls →
      scrapeListings att url = ([SEvent.attempt 1], Except.ok ls)) ∧
    (∀ e1 ls, att 1 = Except.error e1 → att 2 = Except.ok ls →
      scrapeListings att url
        = ([SEvent.attempt 1, SEvent.wait 10000, SEvent.attempt 2],
           Except.ok ls)) ∧
    (∀ e1 e2, att 1 = Except.error e1 → att 2 = Except.error e2 →
      scrapeListings att url
        = ([SEvent.attempt 1, SEvent.wait 10000, SEvent.attempt 2],
           Except.error ("Failed to scrape " ++ url
             ++ " after 2 attempts: " ++ e2))) := by
  refine ⟨?_, ?_, ?_, ?_⟩
  · cases h1 : att 1 with
    | ok ls => simp [scrapeListings, h1, isAttemptEvent]
    | error e1 =>
      cases h2 : att 2 with
      | ok ls =>
        simp [scrapeListings, h1, h2, isAttemptEvent, List.countP_cons]
      | error e2 =>
        simp [scrapeListings, h1, h2, isAttemptEvent, List.countP_cons]
  · intro ls h1
    simp [scrapeListings, h1]
  · intro e1 ls h1 h2
    simp [scrapeListings, h1, h2]
  · intro e1 e2 h1 h2
    simp [scrapeListings, h1, h2]

/-- Witness for C7 (both attempts fail): the thrown error names the URL
and the second underlying failure. -/
theorem c7_scrape_retry_witness :
    scrapeListings
        (fun n => if n = 1 then Except.error "boom" else Except.error "bust")
        "https://example.com/search"
      = ([SEvent.attempt 1, SEvent.wait 10000, SEvent.attempt 2],
         Except.error ("Failed to scrape " ++ "https://example.com/search"
           ++ " after 2 attempts: " ++ "bust")) :=
  (c7_scrape_retry
      (fun n => if n = 1 then Except.error "boom" else Except.error "bust")
      "https://example.com/search").2.2.2 "boom" "bust" (by rfl) (by rfl)

end PropertyAlerts
